import Mathlib

/-!
Shallow embedding of the timetable system's constraint engine.

The development models, in Lean, the JavaScript classes of the repository:

* `TT.CM` — the `ConstraintManager` (period-overlap validation and the
  soft-constraint score calculator).
* `TT.TG` — the `TimetableGenerator` (grid initialisation, the greedy
  assignment engine, the conflict resolver, workload balancing, subject
  distribution, and the manual `moveLesson` operation).

Modelling conventions:

* JavaScript strings, ids and day names are Lean `String`s; `null` becomes
  `Option.none`.  JavaScript truthiness of a nullable string (`null` and
  `""` are falsy) is `jsTruthy`.
* JavaScript numbers are `ℚ` (all arithmetic in the source is exact on
  small rationals); `NaN`-producing paths (division `0/0`, `.reduce` on a
  plain object) are modelled with `Option ℚ` (`none` = `NaN`) or an
  explicit `Except` error where the original code would throw.
* The nested `timetable[day][period_id][class_id]` object is a `Grid`: a
  total function from addresses to `Slot`s together with the list of class
  keys that `for … in` iteration visits.  In-place mutation becomes
  functional update (`setSlot`), performed in the same order as the
  assignments in the source, which preserves the source's aliasing
  behaviour when two addresses coincide.
* `forEach`/`for … of` loops become `List.foldl`; bounded `while` loops
  (`maxAttempts`, `maxIterations`) become structural recursion on the
  remaining iteration count.
* UI side effects (`updateProgress`, `delay`, `console.*`,
  `notifyCollaborators`, `localStorage`) have no effect on the data and
  are dropped; user-facing `ErrorHandler.showNotification` messages are
  collected in an output list where a claim refers to them.
-/

namespace TT

/-- Address of one slot: the key triple of the nested timetable object. -/
structure Addr where
  day : String
  period_id : String
  class_id : String
deriving DecidableEq, Repr

/-- One cell of the timetable, mirroring the object literal built by
`initializeTimetable`. -/
structure Slot where
  day : String
  period_id : String
  class_id : String
  subject_id : Option String
  teacher_id : Option String
  room_id : Option String
  is_break : Bool
deriving DecidableEq, Repr

/-- The timetable: the class keys present under each `(day, period)` (what a
JavaScript `for … in` loop visits) plus the slot stored at each address. -/
structure Grid where
  classIds : List String
  slots : Addr → Slot

/-- A school period record (`type` is one of "lesson", "break", "lunch"). -/
structure Period where
  id : String
  name : String
  start_time : String
  end_time : String
  type : String
deriving DecidableEq, Repr

/-- A subject record. -/
structure Subject where
  id : String
  name : String
  target_lessons_per_week : Nat
  priority : String
deriving DecidableEq, Repr

/-- A class (level + stream) record. -/
structure SchoolClass where
  id : String
  level : String
  stream : String
deriving DecidableEq, Repr

/-- A teacher's preference record. -/
structure TeacherPrefs where
  morning_preference : Bool
deriving DecidableEq, Repr

/-- A teacher record; `preferences` is `none` when the JS object lacks the
field (the source tests its truthiness). -/
structure Teacher where
  id : String
  name : String
  subjects : List String
  class_levels : List String
  preferences : Option TeacherPrefs
deriving DecidableEq, Repr

/-- The generation constraints read from `appState.constraints`. -/
structure Constraints where
  max_daily_lessons : Nat
  prefer_morning : Bool
deriving DecidableEq, Repr

/-- The application state the engine classes read (`this.appState`, plus the
day list: `TimetableGenerator` keeps it in `this.days` and
`ConstraintManager` reads `appState.days`). -/
structure AppState where
  days : List String
  periods : List Period
  subjects : List Subject
  classes : List SchoolClass
  teachers : List Teacher
  constraints : Constraints

/-- JavaScript truthiness of a nullable string: `null` and `""` are falsy. -/
def jsTruthy : Option String → Bool
  | none => false
  | some s => s ≠ ""

/-- Functional update of one slot, modelling in-place mutation of the nested
timetable object. -/
def setSlot (g : Grid) (a : Addr) (s : Slot) : Grid :=
  { g with slots := fun x => if x = a then s else g.slots x }

/-- Addition on JS numbers (`none` = `NaN`). -/
def jAdd : Option ℚ → Option ℚ → Option ℚ
  | some a, some b => some (a + b)
  | _, _ => none

/-- Subtraction on JS numbers (`none` = `NaN`). -/
def jSub : Option ℚ → Option ℚ → Option ℚ
  | some a, some b => some (a - b)
  | _, _ => none

/-- Multiplication on JS numbers (`none` = `NaN`). -/
def jMul : Option ℚ → Option ℚ → Option ℚ
  | some a, some b => some (a * b)
  | _, _ => none

/-- Division on JS numbers; `0 / 0` is `NaN`.  (The source only divides a
sum of loads by their count, so the denominator is `0` exactly when the
numerator is, making `none` a faithful image of `NaN`.) -/
def jDiv : Option ℚ → Option ℚ → Option ℚ
  | some a, some b => if b = 0 then none else some (a / b)
  | _, _ => none

/-- Absolute value on JS numbers. -/
def jAbs : Option ℚ → Option ℚ
  | some a => some |a|
  | none => none

/-- Strict `<` on JS numbers that are known to be naturals (minute counts):
any comparison with `NaN` is false. -/
def jLtN : Option Nat → Option Nat → Bool
  | some a, some b => decide (a < b)
  | _, _ => false

/-- JavaScript `<` on strings: lexicographic comparison, identical to Lean's
`String` order but phrased on the character lists so it evaluates. -/
def jsStrLt (a b : String) : Bool :=
  decide (a.data < b.data)

/-- Strict `>` against a number literal: false when the left side is `NaN`. -/
def jGt (a : Option ℚ) (b : ℚ) : Bool :=
  match a with
  | some x => decide (b < x)
  | none => false

/-- `Math.max(0, x)`: `NaN` propagates. -/
def jMax0 : Option ℚ → Option ℚ
  | some a => some (max 0 a)
  | none => none

/-- `String.prototype.split` on a separator character, phrased on the
character list so it evaluates. -/
def splitChars (sep : Char) : List Char → List (List Char)
  | [] => [[]]
  | c :: rest =>
    if c = sep then [] :: splitChars sep rest
    else
      match splitChars sep rest with
      | g :: gs => (c :: g) :: gs
      | [] => [[c]]

/-- Model of the JS `Number()` conversion on the strings produced by
splitting an `HH:MM` time value: the empty string is 0, a digit string is
its value, anything else is `NaN` (`none`). -/
def numberFromChars (l : List Char) : Option Nat :=
  if l = [] then some 0
  else if l.all (fun c => c.isDigit) then
    some (l.foldl (fun acc c => acc * 10 + (c.toNat - 48)) 0)
  else none

namespace CM

/-- Embeds `timeToMinutes` (constraints module): split on `:` and combine
hours and minutes.  As in `[hours, minutes] = timeStr.split(':')`, only the
first two components are used, and a missing component yields `NaN`. -/
def timeToMinutes (timeStr : String) : Option Nat :=
  match splitChars ':' timeStr.data with
  | h :: m :: _ =>
    match numberFromChars h, numberFromChars m with
    | some a, some b => some (a * 60 + b)
    | _, _ => none
  | _ => none

/-- Embeds `doPeriodsOverlap`: non-lesson periods never overlap; otherwise
the half-open minute intervals are compared. -/
def doPeriodsOverlap (period1 period2 : Period) : Bool :=
  if period1.type ≠ "lesson" ∨ period2.type ≠ "lesson" then false
  else
    jLtN (timeToMinutes period1.start_time) (timeToMinutes period2.end_time) &&
    jLtN (timeToMinutes period2.start_time) (timeToMinutes period1.end_time)

/-- The error message `validatePeriodConstraints` pushes for a flagged pair. -/
def overlapMessage (p q : Period) : String :=
  "Periods " ++ p.name ++ " and " ++ q.name ++ " overlap"

/-- Embeds `validatePeriodConstraints`: the double index loop
`for i; for j = i+1` pushing a message for every overlapping pair. -/
def validatePeriodConstraints (periods : List Period) : List String :=
  (List.range periods.length).flatMap (fun i =>
    (List.range periods.length).filterMap (fun j =>
      if i < j then
        match periods.get? i, periods.get? j with
        | some p, some q =>
          if doPeriodsOverlap p q then some (overlapMessage p q) else none
        | _, _ => none
      else none))

/-- Embeds `countSubjectLessons`: lesson-period slots of one class whose
`subject_id` equals the given id. -/
def countSubjectLessons (st : AppState) (classId subjectId : String) (g : Grid) : Nat :=
  st.days.foldl (fun acc day =>
    st.periods.foldl (fun acc2 p =>
      if p.type = "lesson" then
        if (g.slots ⟨day, p.id, classId⟩).subject_id = some subjectId then acc2 + 1 else acc2
      else acc2) acc) 0

/-- Embeds `calculateSubjectFrequencyPenalty`: per class and subject, the
absolute deviation from target, doubled for high-priority subjects. -/
def calculateSubjectFrequencyPenalty (st : AppState) (g : Grid) : ℚ :=
  st.classes.foldl (fun acc cls =>
    st.subjects.foldl (fun acc2 subject =>
      acc2 + |(countSubjectLessons st cls.id subject.id g : ℚ) -
              (subject.target_lessons_per_week : ℚ)| *
             (if subject.priority = "high" then 2 else 1)) acc) 0

/-- Embeds `isAfternoonPeriod`: the source compares the raw `HH:MM` strings
lexicographically (`period.start_time >= '12:00'`). -/
def isAfternoonPeriod (p : Period) : Bool :=
  !(jsStrLt p.start_time "12:00")

/-- Embeds `countAfternoonLessons`: over every day and afternoon period
(of any type), slots of any class taught by the teacher. -/
def countAfternoonLessons (st : AppState) (teacherId : String) (g : Grid) : Nat :=
  st.days.foldl (fun acc day =>
    st.periods.foldl (fun acc2 p =>
      if isAfternoonPeriod p then
        g.classIds.foldl (fun acc3 cid =>
          if (g.slots ⟨day, p.id, cid⟩).teacher_id = some teacherId then acc3 + 1 else acc3) acc2
      else acc2) acc) 0

/-- Embeds `countTeacherDailyLessons`: lesson-period slots of any class on
one day taught by the teacher. -/
def countTeacherDailyLessons (st : AppState) (teacherId day : String) (g : Grid) : Nat :=
  st.periods.foldl (fun acc p =>
    if p.type = "lesson" then
      g.classIds.foldl (fun acc2 cid =>
        if (g.slots ⟨day, p.id, cid⟩).teacher_id = some teacherId then acc2 + 1 else acc2) acc
    else acc) 0

/-- One teacher's contribution inside `calculateTeacherPreferencePenalty`:
the whole block is guarded by `if (teacher.preferences)`, so a teacher
without a preferences object contributes nothing — including the
max-daily-lessons part. -/
def teacherPrefContribution (st : AppState) (g : Grid) (t : Teacher) : Nat :=
  match t.preferences with
  | none => 0
  | some pr =>
    (if pr.morning_preference then countAfternoonLessons st t.id g else 0) +
    st.days.foldl (fun acc day =>
      let daily := countTeacherDailyLessons st t.id day g
      if st.constraints.max_daily_lessons < daily then
        acc + (daily - st.constraints.max_daily_lessons) * 5
      else acc) 0

/-- Embeds `calculateTeacherPreferencePenalty` (accumulating over teachers). -/
def calculateTeacherPreferencePenalty (st : AppState) (g : Grid) : Nat :=
  st.teachers.foldl (fun acc t => acc + teacherPrefContribution st g t) 0

/-- The `loads[teacherId]++` step of the constraint module's
`calculateTeacherLoads`: incrementing a key that is absent from the object
creates it with value `NaN` (`undefined + 1`). -/
def cmBump (tid : String) : List (String × Option ℚ) → List (String × Option ℚ)
  | [] => [(tid, none)]
  | (k, v) :: rest =>
    if k = tid then (k, v.map (· + 1)) :: rest else (k, v) :: cmBump tid rest

/-- Embeds the constraint module's `calculateTeacherLoads`, which returns
`Object.values(loads)`: keys start at the teacher list (value 0) and
`for … in` order is insertion order. -/
def calculateTeacherLoads (st : AppState) (g : Grid) : List (Option ℚ) :=
  let init : List (String × Option ℚ) := st.teachers.map (fun t => (t.id, some 0))
  let final := st.days.foldl (fun acc day =>
    st.periods.foldl (fun acc2 p =>
      if p.type = "lesson" then
        g.classIds.foldl (fun acc3 cid =>
          let tid := (g.slots ⟨day, p.id, cid⟩).teacher_id
          if jsTruthy tid then cmBump (tid.getD "") acc3 else acc3) acc2
      else acc2) acc) init
  final.map (fun e => e.2)

/-- Embeds `calculateWorkloadImbalancePenalty`: sum of absolute deviations
from the mean load.  With an empty load list the `forEach` body never runs,
so the result is `0` even though the mean is `NaN`. -/
def calculateWorkloadImbalancePenalty (st : AppState) (g : Grid) : Option ℚ :=
  let loads := calculateTeacherLoads st g
  let total := loads.foldl jAdd (some 0)
  let avgLoad := jDiv total (some (loads.length : ℚ))
  loads.foldl (fun acc l => jAdd acc (jAbs (jSub l avgLoad))) (some 0)

/-- Embeds `calculateSoftConstraintScores`: 1000 minus the three weighted
penalties, a +50 bonus when the running score exceeds 950, clamped to ≥ 0. -/
def calculateSoftConstraintScores (st : AppState) (g : Grid) : Option ℚ :=
  let freq : ℚ := calculateSubjectFrequencyPenalty st g
  let pref : ℚ := (calculateTeacherPreferencePenalty st g : ℚ)
  let imb := calculateWorkloadImbalancePenalty st g
  let total := jSub (some (1000 - freq * 10 - pref * 5)) (jMul imb (some 3))
  let total2 := if jGt total 950 then jAdd total (some 50) else total
  jMax0 total2

end CM

/-- An assignment or move cannot throw in this model, but `generate` can:
`thrown` models an explicit `throw new Error(...)` and `typeError` a runtime
`TypeError` (calling a method that does not exist). -/
inductive JsError where
  | thrown (msg : String)
  | typeError (msg : String)
deriving DecidableEq, Repr

namespace TG

/-- The constant `this.days` of `TimetableGenerator` (part_001 variant). -/
def jsWeekDays : List String :=
  ["Monday", "Tuesday", "Wednesday", "Thursday", "Friday", "Saturday", "Sunday"]

/-- A pending lesson slot as produced by `createLessonSlots`. -/
structure LessonSlot where
  day : String
  period_id : String
  class_id : String
  assigned : Bool
deriving DecidableEq, Repr

/-- A best-assignment record as produced by `findBestAssignment`. -/
structure Assignment where
  day : String
  period_id : String
  class_id : String
  teacher_id : String
  subject_id : String
deriving DecidableEq, Repr

/-- The `{ success, message }` object returned by `moveLesson`. -/
structure MoveResult where
  success : Bool
  message : String
deriving DecidableEq, Repr

/-- A teacher double-booking record as produced by `findAllConflicts`;
`assignments` pairs each class id with a snapshot of its slot object. -/
structure Conflict where
  ctype : String
  teacherId : String
  day : String
  periodId : String
  assignments : List (String × Slot)
deriving DecidableEq, Repr

/-- A stable insertion sort: the model of `Array.prototype.sort(cmp)`.  The
comparators in the source are differences of numeric keys, hence consistent,
so every stable sort produces the same result the engine's sort does. -/
def sInsert (le : α → α → Bool) (x : α) : List α → List α
  | [] => [x]
  | y :: ys => if le x y then x :: y :: ys else y :: sInsert le x ys

/-- Stable sort by a boolean `≤` test (see `sInsert`). -/
def jsSortLe (le : α → α → Bool) : List α → List α
  | [] => []
  | x :: xs => sInsert le x (jsSortLe le xs)

/-- Sort by a JS comparator returning an integer. -/
def jsSortBy (cmp : α → α → Int) (l : List α) : List α :=
  jsSortLe (fun a b => decide (cmp a b ≤ 0)) l

/-- The fresh slot object `initializeTimetable` stores at one address. -/
def freshSlot (a : Addr) (brk : Bool) : Slot :=
  ⟨a.day, a.period_id, a.class_id, none, none, none, brk⟩

/-- Embeds `initializeTimetable`: every address whose period key occurs in
the period list holds a fresh slot, `is_break` set for non-lesson periods
(later periods overwrite earlier ones with the same id, as in JS). -/
def initializeTimetable (st : AppState) : Grid :=
  { classIds := st.classes.map (fun c => c.id),
    slots := st.periods.foldl
      (fun f p => fun a => if a.period_id = p.id then freshSlot a (p.type ≠ "lesson") else f a)
      (fun a => freshSlot a false) }

/-- Embeds `placeFixedElements`: stamps `is_break := true` on every slot of
every non-lesson period. -/
def placeFixedElements (st : AppState) (g : Grid) : Grid :=
  st.periods.foldl (fun gg p =>
    if p.type ≠ "lesson" then
      st.days.foldl (fun g2 d =>
        st.classes.foldl (fun g3 c =>
          let a : Addr := ⟨d, p.id, c.id⟩
          setSlot g3 a { g3.slots a with is_break := true }) g2) gg
    else gg) g

/-- Embeds `createLessonSlots`: one pending entry per
`(day, lesson period, class)`. -/
def createLessonSlots (st : AppState) : List LessonSlot :=
  st.days.flatMap (fun d =>
    st.periods.flatMap (fun p =>
      if p.type = "lesson" then st.classes.map (fun c => ⟨d, p.id, c.id, false⟩) else []))

/-- Embeds `getClassLevelDifficulty` (`levelMap[level] || 1`). -/
def getClassLevelDifficulty (level : String) : Nat :=
  if level = "S.1" then 1
  else if level = "S.2" then 2
  else if level = "S.3" then 3
  else if level = "S.4" then 4
  else if level = "S.5" then 5
  else if level = "S.6" then 6
  else 1

/-- Embeds `getAvailableTeachersForClass`: teachers whose `class_levels`
include the class's level.  (The source dereferences the looked-up class
without a null check; in the pipeline the id always resolves, and the
unreachable missing-class case is modelled as the empty list.) -/
def getAvailableTeachersForClass (st : AppState) (classId : String) : List Teacher :=
  match st.classes.find? (fun c => c.id = classId) with
  | some cls => st.teachers.filter (fun t => t.class_levels.contains cls.level)
  | none => []

/-- Embeds the comparator inside `sortSlotsByDifficulty`. -/
def difficultyCmp (st : AppState) (a b : LessonSlot) : Int :=
  let levelOf := fun (cid : String) =>
    match st.classes.find? (fun c => c.id = cid) with
    | some c => c.level
    | none => ""
  let levelDiff : Int :=
    (getClassLevelDifficulty (levelOf b.class_id) : Int) -
    (getClassLevelDifficulty (levelOf a.class_id) : Int)
  if levelDiff ≠ 0 then levelDiff
  else
    ((getAvailableTeachersForClass st b.class_id).length : Int) -
    ((getAvailableTeachersForClass st a.class_id).length : Int)

/-- Embeds `sortSlotsByDifficulty` (`slots.slice().sort(cmp)`). -/
def sortSlotsByDifficulty (st : AppState) (slots : List LessonSlot) : List LessonSlot :=
  jsSortBy (difficultyCmp st) slots

/-- Embeds `getNeededSubjects`: subjects still under target for the class
(target defaulting to 5 via `|| 5`, which also sends an explicit 0 to 5),
sorted by descending remaining deficit. -/
def getNeededSubjects (st : AppState) (classId : String)
    (subjectFrequency : String → String → Nat) : List Subject :=
  let items := st.subjects.filterMap (fun subject =>
    let targetLessons := if subject.target_lessons_per_week = 0 then 5
                         else subject.target_lessons_per_week
    let currentLessons := subjectFrequency classId subject.id
    if currentLessons < targetLessons then some (subject, targetLessons - currentLessons)
    else none)
  (jsSortBy (fun a b => (b.2 : Int) - (a.2 : Int)) items).map (fun e => e.1)

/-- Embeds `calculateAssignmentScore` of the multi-attempt variant.  Note:
the `prefer_morning` bonus tests only the constraint flag and the subject
priority — the function is never given the period, so no morning check
occurs. -/
def calculateAssignmentScore (st : AppState) (teacher : Teacher) (subject : Subject)
    (teacherLoad : String → ℚ) (classLoad : String → String → ℚ)
    (classId day : String) : ℚ :=
  let score1 : ℚ := 100 - teacherLoad teacher.id * 2
  let score2 := score1 - classLoad classId day * 1.5
  let score3 := score2 +
    (if subject.priority = "high" then 10
     else if subject.priority = "medium" then 5
     else 0)
  let score4 := score3 +
    (if st.constraints.prefer_morning && subject.priority = "high" then 5 else 0)
  max 0 score4

/-- Embeds `isTeacherAvailable`: no class key of the `(day, period)` cell may
already hold this teacher. -/
def isTeacherAvailable (teacherId day periodId : String) (g : Grid) : Bool :=
  !(g.classIds.any (fun cid =>
    decide ((g.slots ⟨day, periodId, cid⟩).teacher_id = some teacherId)))

/-- Embeds `isTeacherAvailableById`: like `isTeacherAvailable` but skipping
one class key; the teacher argument may be `null` and is compared with
`===`, so a `null` teacher matches any other `null` teacher. -/
def isTeacherAvailableById (teacherId : Option String) (day periodId : String)
    (g : Grid) (excludeClassId : Option String) : Bool :=
  !(g.classIds.any (fun cid =>
    decide (some cid ≠ excludeClassId) &&
    decide ((g.slots ⟨day, periodId, cid⟩).teacher_id = teacherId)))

/-- Embeds `findBestAssignment`: over needed subjects and eligible, free
teachers, keep the strictly best-scoring pair (first wins ties). -/
def findBestAssignment (st : AppState) (slot : LessonSlot) (g : Grid)
    (teacherLoad : String → ℚ) (classLoad : String → String → ℚ)
    (subjectFrequency : String → String → Nat) : Option Assignment :=
  let neededSubjects := getNeededSubjects st slot.class_id subjectFrequency
  if neededSubjects.isEmpty then none
  else
    let availableTeachers : List Teacher :=
      match st.classes.find? (fun c => c.id = slot.class_id) with
      | some cls => st.teachers.filter (fun t => t.class_levels.contains cls.level)
      | none => []
    let best := neededSubjects.foldl (fun acc subject =>
      (availableTeachers.filter (fun t => t.subjects.contains subject.id)).foldl
        (fun acc2 teacher =>
          if !(isTeacherAvailable teacher.id slot.day slot.period_id g) then acc2
          else
            let score := calculateAssignmentScore st teacher subject teacherLoad classLoad
              slot.class_id slot.day
            if acc2.1 < score then
              (score, some (⟨slot.day, slot.period_id, slot.class_id, teacher.id, subject.id⟩ :
                Assignment))
            else acc2) acc) ((-1 : ℚ), (none : Option Assignment))
    best.2

/-- Embeds `assignLesson`: writes subject and teacher into the slot and
clears `is_break` (spread update keeps the other fields). -/
def assignLesson (g : Grid) (a : Assignment) : Grid :=
  let addr : Addr := ⟨a.day, a.period_id, a.class_id⟩
  setSlot g addr { g.slots addr with
    subject_id := some a.subject_id, teacher_id := some a.teacher_id, is_break := false }

/-- Mutable state threaded through `assignLessons`: the grid and the three
counter objects. -/
structure EngineState where
  g : Grid
  teacherLoad : String → ℚ
  classLoad : String → String → ℚ
  subjectFrequency : String → String → Nat

/-- One step of the `for (const slot of sortedSlots)` body: skip already
assigned slots, otherwise assign the best candidate (updating grid and
counters) or push the slot onto the unassigned list. -/
def processSlot (st : AppState) (acc : EngineState × List LessonSlot × Nat)
    (slot : LessonSlot) : EngineState × List LessonSlot × Nat :=
  if slot.assigned then acc
  else
    let es := acc.1
    match findBestAssignment st slot es.g es.teacherLoad es.classLoad es.subjectFrequency with
    | some a =>
      (⟨assignLesson es.g a,
        fun x => if x = a.teacher_id then es.teacherLoad x + 1 else es.teacherLoad x,
        fun c d => if c = a.class_id ∧ d = a.day then es.classLoad c d + 1 else es.classLoad c d,
        fun c s => if c = a.class_id ∧ s = a.subject_id then es.subjectFrequency c s + 1
                   else es.subjectFrequency c s⟩,
       acc.2.1, acc.2.2 + 1)
    | none => (es, acc.2.1 ++ [slot], acc.2.2)

/-- Embeds `resetSomeSlots`: computes the reset fraction and re-marks the
first `resetCount` slots unassigned (they already are, so the list comes
back unchanged), returning the list.  `resetCount` is
`Math.floor(slots.length * (0.3 + (currentAttempt / maxAttempts) * 0.4))`,
written here as the equal exact integer computation
`(length * (3*maxAttempts + 4*currentAttempt)) / (10*maxAttempts)`. -/
def resetSomeSlots (slots : List LessonSlot) (currentAttempt maxAttempts : Nat) :
    List LessonSlot :=
  let resetCount : Nat :=
    (slots.length * (3 * maxAttempts + 4 * currentAttempt)) / (10 * maxAttempts)
  slots.mapIdx (fun i s => if i < resetCount then { s with assigned := false } else s)

/-- The `maxAttempts` constant of `assignLessons`. -/
def maxAttempts : Nat := 5

/-- The attempt loop of `assignLessons` (`while attempt < maxAttempts`):
each attempt sorts the pending slots, processes them, and either stops
(nothing left unassigned) or retries on the unassigned remainder. -/
def attemptLoop (st : AppState) : Nat → Nat → EngineState → List LessonSlot →
    EngineState × List LessonSlot
  | 0, _, es, slots => (es, slots)
  | fuel + 1, attempt, es, slots =>
    let sortedSlots := sortSlotsByDifficulty st slots
    let r := sortedSlots.foldl (processSlot st) (es, ([] : List LessonSlot), 0)
    if r.2.1.isEmpty then (r.1, [])
    else attemptLoop st fuel (attempt + 1) r.1 (resetSomeSlots r.2.1 attempt maxAttempts)

/-- Embeds `assignLessons`: runs the attempt loop and returns the final grid
together with the count of slots still unassigned (`finalUnassigned`). -/
def assignLessons (st : AppState) (g : Grid) (lessonSlots : List LessonSlot) : Grid × Nat :=
  let es0 : EngineState := ⟨g, fun _ => 0, fun _ _ => 0, fun _ _ => 0⟩
  let r := attemptLoop st maxAttempts 0 es0 lessonSlots
  (r.1.g, (r.2.filter (fun s => !s.assigned)).length)

/-- Groups `collectTeacherAssignments` entries by teacher key in insertion
order (the object keyed by `slot.teacher_id` in `findAllConflicts`). -/
def groupInsert (k : String) (v : β) : List (String × List β) → List (String × List β)
  | [] => [(k, [v])]
  | (k2, vs) :: rest =>
    if k2 = k then (k2, vs ++ [v]) :: rest else (k2, vs) :: groupInsert k v rest

/-- Folds a keyed list into insertion-ordered groups. -/
def groupByKey (l : List (String × β)) : List (String × List β) :=
  l.foldl (fun acc kv => groupInsert kv.1 kv.2 acc) []

/-- The per-`(day, period)` scan of `findAllConflicts`: every class whose
slot has a truthy teacher and is not a break contributes an entry keyed by
the teacher id. -/
def collectTeacherAssignments (st : AppState) (g : Grid) (day : String) (p : Period) :
    List (String × (String × Slot)) :=
  st.classes.filterMap (fun cls =>
    let slot := g.slots ⟨day, p.id, cls.id⟩
    if jsTruthy slot.teacher_id && !slot.is_break then
      some (slot.teacher_id.getD "", (cls.id, slot))
    else none)

/-- Conflicts found at one `(day, period)`: teachers with more than one
assignment. -/
def conflictsAt (st : AppState) (g : Grid) (day : String) (p : Period) : List Conflict :=
  (groupByKey (collectTeacherAssignments st g day p)).filterMap (fun e =>
    if 1 < e.2.length then
      some ⟨"teacher_double_booking", e.1, day, p.id, e.2⟩
    else none)

/-- Embeds `findAllConflicts`: scan all days and lesson periods. -/
def findAllConflicts (st : AppState) (g : Grid) : List Conflict :=
  st.days.flatMap (fun day =>
    st.periods.flatMap (fun p =>
      if p.type = "lesson" then conflictsAt st g day p else []))

/-- Embeds `findAlternativeSlot`: the first `(day, lesson period)` other than
the original one where the class's slot is empty (falsy subject), not a
break, and the teacher is free (excluding the class itself). -/
def findAlternativeSlot (st : AppState) (originalSlot : Slot) (teacherId : String)
    (g : Grid) : Option (String × String) :=
  st.days.findSome? (fun day =>
    st.periods.findSome? (fun p =>
      if p.type ≠ "lesson" then none
      else if day = originalSlot.day ∧ p.id = originalSlot.period_id then none
      else
        let slot := g.slots ⟨day, p.id, originalSlot.class_id⟩
        if !(jsTruthy slot.subject_id) && !slot.is_break &&
           isTeacherAvailableById (some teacherId) day p.id g (some originalSlot.class_id) then
          some (day, p.id)
        else none))

/-- The `for (const assignment of assignments.slice(1))` body of
`resolveTeacherDoubleBooking`: relocate the first conflicting assignment
that has an alternative slot (copy the snapshot there, reset the original
address to the canonical empty lesson slot), else try the next. -/
def tryRelocate (st : AppState) (teacherId day periodId : String) (g : Grid) :
    List (String × Slot) → Option Grid
  | [] => none
  | (classId, snap) :: rest =>
    match findAlternativeSlot st snap teacherId g with
    | some alt =>
      let g1 := setSlot g ⟨alt.1, alt.2, classId⟩ { snap with day := alt.1, period_id := alt.2 }
      let g2 := setSlot g1 ⟨day, periodId, classId⟩
        ⟨day, periodId, classId, none, none, none, false⟩
      some g2
    | none => tryRelocate st teacherId day periodId g rest

/-- Embeds `resolveTeacherDoubleBooking`. -/
def resolveTeacherDoubleBooking (st : AppState) (c : Conflict) (g : Grid) : Option Grid :=
  tryRelocate st c.teacherId c.day c.periodId g (c.assignments.drop 1)

/-- Embeds `resolveSpecificConflict` (the `switch` on the conflict type). -/
def resolveSpecificConflict (st : AppState) (c : Conflict) (g : Grid) : Option Grid :=
  if c.ctype = "teacher_double_booking" then resolveTeacherDoubleBooking st c g else none

/-- One iteration body of `resolveConflicts`: try to repair every conflict of
the list in order, counting successes (later repairs see earlier mutations,
while each conflict keeps its slot snapshots). -/
def resolveIteration (st : AppState) (g : Grid) (conflicts : List Conflict) : Nat × Grid :=
  conflicts.foldl (fun acc c =>
    match resolveSpecificConflict st c acc.2 with
    | some g2 => (acc.1 + 1, g2)
    | none => acc) (0, g)

/-- The bounded iteration loop of `resolveConflicts` (`maxIterations` 100);
stops early when no conflicts remain or an iteration repairs nothing. -/
def resolveLoop (st : AppState) : Nat → Grid → Nat → Nat × Grid
  | 0, g, total => (total, g)
  | fuel + 1, g, total =>
    let conflicts := findAllConflicts st g
    if conflicts.isEmpty then (total, g)
    else
      let r := resolveIteration st g conflicts
      if r.1 = 0 then (total + r.1, r.2)
      else resolveLoop st fuel r.2 (total + r.1)

/-- Embeds `resolveConflicts`: returns the resolved-conflict count and the
repaired grid. -/
def resolveConflicts (st : AppState) (g : Grid) : Nat × Grid :=
  resolveLoop st 100 g 0

/-- Embeds the generator's `calculateTeacherLoads` (part_001 variant): note
it returns the keyed object itself (an association list here), not an
array of values. -/
def calculateTeacherLoads (st : AppState) (g : Grid) : List (String × ℚ) :=
  let init : List (String × ℚ) := st.teachers.map (fun t => (t.id, 0))
  st.days.foldl (fun acc day =>
    st.periods.foldl (fun acc2 p =>
      if p.type = "lesson" then
        g.classIds.foldl (fun acc3 cid =>
          match (g.slots ⟨day, p.id, cid⟩).teacher_id with
          | some tid =>
            if tid ≠ "" then
              acc3.map (fun e => if e.1 = tid then (e.1, e.2 + 1) else e)
            else acc3
          | none => acc3) acc2
      else acc2) acc) init

/-- Embeds `balanceTeacherWorkload`.  Its second statement calls
`teacherLoads.reduce(...)` on the plain object returned by
`calculateTeacherLoads` (line 590 on line 755's return value); plain objects
have no `reduce` method, so the call throws a `TypeError` unconditionally
and the rest of the function is unreachable.  When the cancellation flag is
set the function returns before reaching that statement. -/
def balanceTeacherWorkload (st : AppState) (cancelled : Bool) (g : Grid) :
    Except JsError Grid :=
  if cancelled then Except.ok g
  else
    let _teacherLoads := calculateTeacherLoads st g
    Except.error (JsError.typeError "teacherLoads.reduce is not a function")

/-- Embeds `calculateSubjectDistribution`: per-subject lesson counts for one
class (keys initialised from the subject list). -/
def calculateSubjectDistribution (st : AppState) (classId : String) (g : Grid) :
    String → Nat :=
  fun sid =>
    st.days.foldl (fun acc day =>
      st.periods.foldl (fun acc2 p =>
        if p.type = "lesson" then
          if (g.slots ⟨day, p.id, classId⟩).subject_id = some sid then acc2 + 1 else acc2
        else acc2) acc) 0

/-- Embeds `addMissingLessons`: walk days and lesson periods, filling empty
non-break slots of the class with the subject and the first eligible,
available teacher, until `missingCount` lessons are added. -/
def addMissingLessons (st : AppState) (classId subjectId : String) (missingCount : Nat)
    (g : Grid) : Grid :=
  let level :=
    match st.classes.find? (fun c => c.id = classId) with
    | some c => c.level
    | none => ""
  let r := st.days.foldl (fun (acc : Grid × Nat) day =>
    st.periods.foldl (fun (acc2 : Grid × Nat) p =>
      if p.type ≠ "lesson" then acc2
      else if missingCount ≤ acc2.2 then acc2
      else
        let slot := acc2.1.slots ⟨day, p.id, classId⟩
        if !(jsTruthy slot.subject_id) && !slot.is_break then
          match st.teachers.find? (fun (t : Teacher) =>
            t.subjects.contains subjectId && t.class_levels.contains level &&
            isTeacherAvailableById (some t.id) day p.id acc2.1 (some classId)) with
          | some teacher =>
            (setSlot acc2.1 ⟨day, p.id, classId⟩
              { slot with subject_id := some subjectId, teacher_id := some teacher.id },
             acc2.2 + 1)
          | none => acc2
        else acc2) acc) (g, 0)
  r.1

/-- Embeds `optimizeSubjectDistribution`: per class, compute the distribution
snapshot once, then top up every under-target subject. -/
def optimizeSubjectDistribution (st : AppState) (cancelled : Bool) (g : Grid) : Grid :=
  if cancelled then g
  else
    st.classes.foldl (fun gg cls =>
      let dist := calculateSubjectDistribution st cls.id gg
      st.subjects.foldl (fun g2 subject =>
        let targetLessons := if subject.target_lessons_per_week = 0 then 5
                             else subject.target_lessons_per_week
        let currentLessons := dist subject.id
        if currentLessons < targetLessons then
          addMissingLessons st cls.id subject.id (targetLessons - currentLessons) g2
        else g2) gg) g

/-- Embeds `validateTimetable`: its teacher-workload check calls `.reduce`
on the plain object returned by `calculateTeacherLoads` (lines 732–733), so
the function always throws a `TypeError` before producing its result. -/
def validateTimetable (st : AppState) (g : Grid) : Except JsError (Bool × List String) :=
  let _teacherLoads := calculateTeacherLoads st g
  Except.error (JsError.typeError "teacherLoads.reduce is not a function")

/-- Embeds `optimizeTimetable`: conflict resolution, then workload
balancing, then subject distribution (in the `Except` monad because the
balancing step throws). -/
def optimizeTimetable (st : AppState) (cancelled : Bool) (g : Grid) :
    Except JsError (Nat × Grid) :=
  if cancelled then Except.ok (0, g)
  else
    let r := resolveConflicts st g
    match balanceTeacherWorkload st cancelled r.2 with
    | Except.error e => Except.error e
    | Except.ok g2 => Except.ok (r.1, optimizeSubjectDistribution st cancelled g2)

/-- Embeds `validateData` minus its notifications: generation refuses to
start when any entity collection is empty. -/
def validateData (st : AppState) : Bool :=
  !st.periods.isEmpty && !st.subjects.isEmpty && !st.classes.isEmpty && !st.teachers.isEmpty

/-- Embeds `generate` for an uncancelled run: validation, initialisation,
assignment (collecting the user-facing warning notifications), then the
optimisation passes and final validation.  Errors thrown anywhere are
re-thrown by `generate` (its `catch` block rethrows). -/
def generate (st : AppState) : List String × Except JsError Grid :=
  if !(validateData st) then
    ([], Except.error (JsError.thrown "Invalid data. Please check your setup."))
  else
    let teachersWithoutSubjects := st.teachers.filter (fun t => t.subjects.isEmpty)
    let subjectsWithoutTeachers := st.subjects.filter (fun subject =>
      !(st.teachers.any (fun t => t.subjects.contains subject.id)))
    let notifs0 :=
      (if !teachersWithoutSubjects.isEmpty then
        [toString teachersWithoutSubjects.length ++ " teachers have no subjects assigned."]
       else []) ++
      (if !subjectsWithoutTeachers.isEmpty then
        [toString subjectsWithoutTeachers.length ++ " subjects have no teachers available."]
       else [])
    let g0 := placeFixedElements st (initializeTimetable st)
    let lessonSlots := createLessonSlots st
    let r := assignLessons st g0 lessonSlots
    let notifs1 := notifs0 ++
      (if 0 < r.2 then
        [toString r.2 ++ " lessons could not be assigned. Consider adjusting constraints."]
       else [])
    match optimizeTimetable st false r.1 with
    | Except.error e => (notifs1, Except.error e)
    | Except.ok r2 =>
      match validateTimetable st r2.2 with
      | Except.error e => (notifs1, Except.error e)
      | Except.ok _ => (notifs1, Except.ok r2.2)

/-- Embeds `moveLesson` (part_001 variant): the three rejection checks, then
the field-by-field copy into the target followed by clearing the source, in
source order (so a move whose two addresses coincide clears the slot). -/
def moveLesson (g : Grid) (f t : Addr) : MoveResult × Grid :=
  let fromSlot := g.slots f
  let toSlot := g.slots t
  if toSlot.is_break then (⟨false, "Cannot move lesson to break period"⟩, g)
  else if jsTruthy toSlot.subject_id then (⟨false, "Target slot is already occupied"⟩, g)
  else if !(isTeacherAvailableById fromSlot.teacher_id t.day t.period_id g (some f.class_id))
    then (⟨false, "Teacher not available in target slot"⟩, g)
  else
    let g1 := setSlot g t { toSlot with
      subject_id := fromSlot.subject_id,
      teacher_id := fromSlot.teacher_id,
      room_id := fromSlot.room_id }
    let fromSlot1 := g1.slots f
    let g2 := setSlot g1 f { fromSlot1 with
      subject_id := none, teacher_id := none, room_id := none }
    (⟨true, "Lesson moved successfully"⟩, g2)

end TG

/-! ### Specification-side statements

Definitions in this section follow the wording of the specification and of
the claims under scrutiny (not the source); they exist to be compared with
the source-derived definitions above. -/

/-- Teacher exclusivity as the specification states it: at every
`(day, lesson period)`, no non-null `teacher_id` appears in the slots of two
different classes (break slots carry no lesson). -/
def TeacherExclusive (st : AppState) (g : Grid) : Prop :=
  ∀ d ∈ st.days, ∀ p ∈ st.periods, p.type = "lesson" →
    (st.classes.map (fun c => g.slots ⟨d, p.id, c.id⟩)).Pairwise
      (fun s1 s2 => ¬(s1.is_break = false ∧ s2.is_break = false ∧
        s1.teacher_id ≠ none ∧ s1.teacher_id = s2.teacher_id))

instance (st : AppState) (g : Grid) : Decidable (TeacherExclusive st g) := by
  unfold TeacherExclusive; infer_instance

/-- Move atomicity as the claim states it: `moveLesson` either succeeds —
source slot cleared, target slot populated with the source's former subject,
teacher and room, every other slot untouched — or rejects and leaves the
grid unchanged. -/
def MoveAtomicSpec (g : Grid) (f t : Addr) : Prop :=
  let r := TG.moveLesson g f t
  (r.1.success = true ∧
    r.2.slots f =
      { g.slots f with subject_id := none, teacher_id := none, room_id := none } ∧
    r.2.slots t =
      { g.slots t with
          subject_id := (g.slots f).subject_id,
          teacher_id := (g.slots f).teacher_id,
          room_id := (g.slots f).room_id } ∧
    ∀ a : Addr, a ≠ f → a ≠ t → r.2.slots a = g.slots a) ∨
  (r.1.success = false ∧ r.2 = g)

/-- Modelled from the spec: "Morning" means the period's start time,
converted to minutes since midnight, is before 12:00 (720 minutes). -/
def specIsMorningPeriod (p : Period) : Bool :=
  jLtN (CM.timeToMinutes p.start_time) (some 720)

/-- Modelled from the spec: the assignment score formula of §4.3 including
its morning condition — `+5` exactly when `prefer_morning` is set, the
subject priority is high and the period starts before 12:00. -/
def specAssignmentScore (st : AppState) (teacher : Teacher) (subject : Subject)
    (teacherLoad : String → ℚ) (classLoad : String → String → ℚ)
    (classId day : String) (p : Period) : ℚ :=
  max 0 (100 - teacherLoad teacher.id * 2 - classLoad classId day * 1.5 +
    (if subject.priority = "high" then 10
     else if subject.priority = "medium" then 5
     else 0) +
    (if st.constraints.prefer_morning && subject.priority = "high" &&
        specIsMorningPeriod p then 5 else 0))

/-- Total units by which teachers owning a `preferences` object exceed
`max_daily_lessons`, summed over days (the amended reading of claim C7's
first penalty). -/
def totalDailyOverrunPref (st : AppState) (g : Grid) : Nat :=
  ((st.teachers.filter (fun t => t.preferences.isSome)).map (fun t =>
    st.days.foldl (fun acc day =>
      acc + (CM.countTeacherDailyLessons st t.id day g -
             st.constraints.max_daily_lessons)) 0)).sum

/-- Total units by which any teacher (preferences object or not) exceeds
`max_daily_lessons` — the quantity claim C7 says is penalised. -/
def totalDailyOverrunAll (st : AppState) (g : Grid) : Nat :=
  (st.teachers.map (fun t =>
    st.days.foldl (fun acc day =>
      acc + (CM.countTeacherDailyLessons st t.id day g -
             st.constraints.max_daily_lessons)) 0)).sum

/-- Total afternoon lessons of teachers with `morning_preference`. -/
def totalAfternoonPrefLessons (st : AppState) (g : Grid) : Nat :=
  ((st.teachers.filter (fun t =>
    match t.preferences with
    | some pr => pr.morning_preference
    | none => false)).map (fun t => CM.countAfternoonLessons st t.id g)).sum

/-- Modelled from claim C7's words: the soft score if every daily-overrun
unit of every teacher cost 5 points of total score and every afternoon
lesson of a morning-preference teacher cost 5 points. -/
def claimC7SoftScore (st : AppState) (g : Grid) : Option ℚ :=
  let freq : ℚ := CM.calculateSubjectFrequencyPenalty st g
  let pen : ℚ := 5 * (totalDailyOverrunAll st g : ℚ) +
                 5 * (totalAfternoonPrefLessons st g : ℚ)
  let total := jSub (some (1000 - freq * 10 - pen))
    (jMul (CM.calculateWorkloadImbalancePenalty st g) (some 3))
  jMax0 (if jGt total 950 then jAdd total (some 50) else total)

/-- Number of entries of a keyed list carrying the given key (proof-side
view of the grouping performed by `findAllConflicts`). -/
def keyCount (t : String) (l : List (String × α)) : Nat :=
  (l.filter (fun e => e.1 = t)).length

/-- Length of the group stored under the given key, `0` when absent. -/
def groupLen (t : String) : List (String × List α) → Nat
  | [] => 0
  | e :: rest => if e.1 = t then e.2.length else groupLen t rest

/-! ### Concrete fixtures used by witnesses and counterexamples -/

/-- A morning lesson period. -/
def lessonP1 : Period := ⟨"p1", "Period 1", "08:00", "09:00", "lesson"⟩

/-- An afternoon lesson period. -/
def pAfternoon : Period := ⟨"p9", "Period 9", "14:00", "15:00", "lesson"⟩

/-- A grid in which every slot is an empty lesson slot. -/
def emptyGrid : Grid := { classIds := [], slots := fun a => TG.freshSlot a false }

/-- A one-day, one-period, two-class application state. -/
def st1 : AppState :=
  { days := ["Monday"], periods := [lessonP1], subjects := [],
    classes := [⟨"c1", "S.1", "A"⟩, ⟨"c2", "S.1", "B"⟩], teachers := [],
    constraints := ⟨3, false⟩ }

/-- A grid in which one teacher is double-booked across both classes in the
sole lesson period, with no free slot to relocate to. -/
def conflictedGrid : Grid :=
  { classIds := ["c1", "c2"],
    slots := fun a => ⟨a.day, a.period_id, a.class_id, some "s1", some "t1", none, false⟩ }

/-- A fully taught but conflict-free grid: the two classes use two distinct
teachers. -/
def exclusiveGrid : Grid :=
  { classIds := ["c1", "c2"],
    slots := fun a => ⟨a.day, a.period_id, a.class_id, some "s1",
      (if a.class_id = "c1" then some "t1" else some "t2"), none, false⟩ }

/-- A single-class grid whose slots are all empty lessons except that each
carries a room assignment. -/
def roomOnlyGrid : Grid :=
  { classIds := ["c1"],
    slots := fun a => ⟨a.day, a.period_id, a.class_id, none, none, some "r1", false⟩ }

/-- An address inside `roomOnlyGrid`. -/
def addrA : Addr := ⟨"Monday", "p1", "c1"⟩

/-- A second, distinct address inside `roomOnlyGrid`. -/
def addrB : Addr := ⟨"Monday", "p2", "c1"⟩

/-- A single-class grid whose `pb` period is a break and whose other periods
are empty lessons. -/
def c9Grid : Grid :=
  { classIds := ["c1"],
    slots := fun a =>
      if a.period_id = "pb" then ⟨a.day, a.period_id, a.class_id, none, none, none, true⟩
      else ⟨a.day, a.period_id, a.class_id, none, none, none, false⟩ }

/-- The break-slot address of `c9Grid`. -/
def a9 : Addr := ⟨"Monday", "pb", "c1"⟩

/-- An empty lesson address of `c9Grid`. -/
def b9 : Addr := ⟨"Monday", "p1", "c1"⟩

/-- A two-class grid for the round-trip witness: exactly one lesson, taught
by `t1` in class `c1` at `(Monday, p1)`; everything else is an empty lesson
slot. -/
def c9WGrid : Grid :=
  { classIds := ["c1", "c2"],
    slots := fun a =>
      if a = ⟨"Monday", "p1", "c1"⟩ then
        ⟨"Monday", "p1", "c1", some "s1", some "t1", some "r1", false⟩
      else ⟨a.day, a.period_id, a.class_id, none, none, none, false⟩ }

/-- The occupied source address of `c9WGrid`. -/
def a9w : Addr := ⟨"Monday", "p1", "c1"⟩

/-- The empty target address of `c9WGrid`. -/
def b9w : Addr := ⟨"Monday", "p2", "c1"⟩

/-- A two-class grid whose `pb` period is a break; every slot is empty. -/
def c10Grid : Grid :=
  { classIds := ["c1", "c2"],
    slots := fun a =>
      if a.period_id = "pb" then ⟨a.day, a.period_id, a.class_id, none, none, none, true⟩
      else ⟨a.day, a.period_id, a.class_id, none, none, none, false⟩ }

/-- An empty lesson source address of `c10Grid` (null teacher). -/
def f10 : Addr := ⟨"Monday", "p1", "c1"⟩

/-- A break target address of `c10Grid`. -/
def t10break : Addr := ⟨"Monday", "pb", "c1"⟩

/-- An empty lesson target address of `c10Grid`. -/
def t10lesson : Addr := ⟨"Monday", "p2", "c1"⟩

/-- State with `prefer_morning` enabled (only constraints are read by the
score function). -/
def stC3 : AppState :=
  { days := [], periods := [], subjects := [], classes := [], teachers := [],
    constraints := ⟨3, true⟩ }

/-- A teacher record for the score evaluation. -/
def teacherC3 : Teacher := ⟨"t1", "T One", ["s1"], ["S.1"], none⟩

/-- A high-priority subject for the score evaluation. -/
def subjectC3 : Subject := ⟨"s1", "Maths", 5, "high"⟩

/-- The input on which `generate` is evaluated: seven week days, one lesson
period, one class, one subject, and one teacher whose `class_levels` do not
match the class, so that no slot can ever be assigned. -/
def stC4 : AppState :=
  { days := TG.jsWeekDays, periods := [lessonP1],
    subjects := [⟨"sub1", "Math", 5, "medium"⟩],
    classes := [⟨"c1", "S.1", "A"⟩],
    teachers := [⟨"t1", "T One", ["sub1"], ["S.2"], none⟩],
    constraints := ⟨3, false⟩ }

/-- A state with no entities at all: every penalty of the soft-score
calculator is zero on it. -/
def stC6 : AppState :=
  { days := [], periods := [], subjects := [], classes := [], teachers := [],
    constraints := ⟨3, false⟩ }

/-- One teacher with a preferences object (`morning_preference: false`),
`max_daily_lessons` 0, no subjects: the teacher's single lesson exceeds the
daily cap by one unit and nothing else is penalised. -/
def stC7 : AppState :=
  { days := ["Monday"], periods := [lessonP1], subjects := [],
    classes := [⟨"c1", "S.1", "A"⟩],
    teachers := [⟨"t1", "T One", [], [], some ⟨false⟩⟩],
    constraints := ⟨0, false⟩ }

/-- The grid for `stC7`: exactly one lesson, taught by `t1`. -/
def gC7 : Grid :=
  { classIds := ["c1"],
    slots := fun a =>
      if a = ⟨"Monday", "p1", "c1"⟩ then
        ⟨"Monday", "p1", "c1", some "s1", some "t1", none, false⟩
      else TG.freshSlot a false }

/-! ### Theorems -/

/-- C2 (counterexample): when the two addresses coincide, the source slot
and the target slot are the same JavaScript object, and `moveLesson` (whose
checks all pass on an empty-but-roomed slot) first copies each field onto
itself and then clears the slot — so the move reports success, the room
assignment is destroyed, and neither branch of the claimed dichotomy holds. -/
theorem c2_move_atomicity_counterexample : ¬ MoveAtomicSpec roomOnlyGrid addrA addrA := by
  intro h
  rcases h with ⟨_, _, hto, _⟩ | ⟨hs, _⟩
  · have h1 : ((TG.moveLesson roomOnlyGrid addrA addrA).2.slots addrA).room_id = none := by
      decide
    rw [hto] at h1
    simp [roomOnlyGrid] at h1
  · have h2 : (TG.moveLesson roomOnlyGrid addrA addrA).1.success = true := by decide
    rw [hs] at h2
    cases h2

/-- C2 (amended): for two distinct addresses, `moveLesson` either performs
exactly the two-slot update the spec describes, leaving every other slot
untouched, or rejects the move and returns the grid unchanged. -/
theorem c2_move_atomicity (g : Grid) (f t : Addr) (h : f ≠ t) : MoveAtomicSpec g f t := by
  unfold MoveAtomicSpec TG.moveLesson
  dsimp only
  split_ifs with h1 h2 h3
  · exact Or.inr ⟨rfl, rfl⟩
  · exact Or.inr ⟨rfl, rfl⟩
  · exact Or.inr ⟨rfl, rfl⟩
  · refine Or.inl ⟨rfl, ?_, ?_, ?_⟩
    · simp [setSlot, h]
    · simp [setSlot, h, Ne.symm h]
    · intro a ha hb
      simp [setSlot, ha, hb]

/-- C2 (witness): the amended dichotomy at a concrete grid and a concrete
pair of distinct addresses. -/
theorem c2_move_atomicity_witness :
    addrA ≠ addrB ∧ MoveAtomicSpec roomOnlyGrid addrA addrB :=
  ⟨by decide, c2_move_atomicity roomOnlyGrid addrA addrB (by decide)⟩

/-- C4 (bug evaluation): on a well-formed input whose only teacher cannot
serve the only class, all 7 lesson slots stay unassigned; `generate` does
emit the unassigned-count warning notification, but then always throws a
`TypeError` — `balanceTeacherWorkload` calls `.reduce` on the plain object
returned by `calculateTeacherLoads` — instead of returning the partial
grid. -/
theorem c4_generate_crashes_after_warning :
    (TG.generate stC4).1 =
      ["7 lessons could not be assigned. Consider adjusting constraints."] ∧
    (TG.generate stC4).2 =
      Except.error (JsError.typeError "teacherLoads.reduce is not a function") :=
  ⟨by decide, by rfl⟩

/-- C10 (counterexample): with a null-teacher source and another class's
null-teacher slot at the target period, the move is indeed rejected — but
when the target is a break slot the reported reason is the break-period
message, not the teacher-unavailable one the claim promises. -/
theorem c10_null_teacher_counterexample :
    (c10Grid.slots f10).teacher_id = none ∧
    ("c2" ∈ c10Grid.classIds ∧ "c2" ≠ f10.class_id ∧
      (c10Grid.slots ⟨t10break.day, t10break.period_id, "c2"⟩).teacher_id = none) ∧
    (TG.moveLesson c10Grid f10 t10break).1 =
      ⟨false, "Cannot move lesson to break period"⟩ ∧
    "Cannot move lesson to break period" ≠ "Teacher not available in target slot" := by
  refine ⟨by decide, ⟨by decide, by decide, by decide⟩, by decide, by decide⟩

/-- C10 (amended): when the target slot is a non-break slot with a falsy
subject, a null-teacher source is rejected with the teacher-unavailable
reason whenever any other class has a null-teacher slot at the target
period: the `===` scan matches `null` against `null`. -/
theorem c10_null_teacher_rejected (g : Grid) (f t : Addr)
    (hb : (g.slots t).is_break = false)
    (hs : jsTruthy (g.slots t).subject_id = false)
    (ht : (g.slots f).teacher_id = none)
    (c : String) (hc : c ∈ g.classIds) (hcne : c ≠ f.class_id)
    (hnull : (g.slots ⟨t.day, t.period_id, c⟩).teacher_id = none) :
    TG.moveLesson g f t = (⟨false, "Teacher not available in target slot"⟩, g) := by
  have havail : TG.isTeacherAvailableById (g.slots f).teacher_id t.day t.period_id g
      (some f.class_id) = false := by
    unfold TG.isTeacherAvailableById
    simp only [Bool.not_eq_false']
    exact List.any_eq_true.mpr ⟨c, hc, by simp [hcne, ht, hnull]⟩
  unfold TG.moveLesson
  dsimp only
  rw [if_neg (by simp [hb]), if_neg (by simp [hs]), if_pos (by simp [havail])]

/-- C10 (witness): the amended rejection at a concrete grid — empty source
slot, empty lesson target, second class also empty at the target period. -/
theorem c10_null_teacher_rejected_witness :
    (c10Grid.slots t10lesson).is_break = false ∧
    jsTruthy (c10Grid.slots t10lesson).subject_id = false ∧
    (c10Grid.slots f10).teacher_id = none ∧
    ("c2" ∈ c10Grid.classIds ∧ "c2" ≠ f10.class_id ∧
      (c10Grid.slots ⟨t10lesson.day, t10lesson.period_id, "c2"⟩).teacher_id = none) ∧
    TG.moveLesson c10Grid f10 t10lesson =
      (⟨false, "Teacher not available in target slot"⟩, c10Grid) :=
  ⟨by decide, by decide, by decide, ⟨by decide, by decide, by decide⟩,
   c10_null_teacher_rejected c10Grid f10 t10lesson (by decide) (by decide) (by decide)
     "c2" (by decide) (by decide) (by decide)⟩

/-- Unfolds the availability scan: the teacher value is unavailable exactly
when some non-excluded class key holds it at the period. -/
theorem isTeacherAvailableById_eq_false (tid : Option String) (day pid : String)
    (g : Grid) (exclude : Option String) :
    TG.isTeacherAvailableById tid day pid g exclude = false ↔
    ∃ c ∈ g.classIds, some c ≠ exclude ∧ (g.slots ⟨day, pid, c⟩).teacher_id = tid := by
  unfold TG.isTeacherAvailableById
  simp

/-- C5: `moveLesson` rejects exactly when the target is a break slot, the
target already holds a subject, or the source slot's teacher value occurs at
the target `(day, period)` in a class other than the source class; every
rejection returns one of the three typed reason strings and leaves the grid
unchanged.  (The hypothesis reflects the data model: subject ids are opaque
non-empty UUID strings, so a held subject is exactly a non-null one.) -/
theorem c5_move_rejection (g : Grid) (f t : Addr)
    (hwf : (g.slots t).subject_id ≠ some "") :
    ((TG.moveLesson g f t).1.success = false ↔
      ((g.slots t).is_break = true ∨ (g.slots t).subject_id ≠ none ∨
        ∃ c ∈ g.classIds, c ≠ f.class_id ∧
          (g.slots ⟨t.day, t.period_id, c⟩).teacher_id = (g.slots f).teacher_id)) ∧
    ((TG.moveLesson g f t).1.success = false →
      (TG.moveLesson g f t).2 = g ∧
      ((TG.moveLesson g f t).1.message = "Cannot move lesson to break period" ∨
       (TG.moveLesson g f t).1.message = "Target slot is already occupied" ∨
       (TG.moveLesson g f t).1.message = "Teacher not available in target slot")) := by
  unfold TG.moveLesson
  dsimp only
  split_ifs with h1 h2 h3
  · exact ⟨iff_of_true rfl (Or.inl h1), fun _ => ⟨rfl, Or.inl rfl⟩⟩
  · refine ⟨iff_of_true rfl (Or.inr (Or.inl ?_)), fun _ => ⟨rfl, Or.inr (Or.inl rfl)⟩⟩
    rcases hx : (g.slots t).subject_id with _ | s
    · rw [hx] at h2; simp [jsTruthy] at h2
    · simp [hx]
  · refine ⟨iff_of_true rfl (Or.inr (Or.inr ?_)), fun _ => ⟨rfl, Or.inr (Or.inr rfl)⟩⟩
    rw [Bool.not_eq_true'] at h3
    obtain ⟨c, hc, hce, hcv⟩ := (isTeacherAvailableById_eq_false _ _ _ _ _).mp h3
    exact ⟨c, hc, by simpa using hce, hcv⟩
  · refine ⟨?_, fun hfalse => by cases hfalse⟩
    constructor
    · intro hfalse; cases hfalse
    · intro hcond
      exfalso
      rcases hcond with hbrk | hsub | ⟨c, hc, hcne, heq⟩
      · exact h1 hbrk
      · rcases hx : (g.slots t).subject_id with _ | s
        · exact hsub hx
        · apply h2
          rw [hx]
          have hs0 : s ≠ "" := fun hse => hwf (by rw [hx, hse])
          simp [jsTruthy, hs0]
      · apply h3
        rw [Bool.not_eq_true']
        exact (isTeacherAvailableById_eq_false _ _ _ _ _).mpr ⟨c, hc, by simpa using hcne, heq⟩

/-- C5 (witness): a rejected move (break target) on a concrete grid,
rejected with a typed reason and an unchanged grid. -/
theorem c5_move_rejection_witness :
    (c9Grid.slots a9).subject_id ≠ some "" ∧
    (TG.moveLesson c9Grid b9 a9).1.success = false ∧
    (TG.moveLesson c9Grid b9 a9).2 = c9Grid := by
  have hwf : (c9Grid.slots a9).subject_id ≠ some "" := by decide
  have h := c5_move_rejection c9Grid b9 a9 hwf
  have hrej : (TG.moveLesson c9Grid b9 a9).1.success = false :=
    h.1.mpr (Or.inl (by decide))
  exact ⟨hwf, hrej, (h.2 hrej).1⟩

/-- C3 (bug evaluation): with `prefer_morning` enabled, a high-priority
subject and zero loads, the engine's score function returns 115 for *any*
slot — it is never given the period and adds the +5 bonus unconditionally —
whereas the specified formula gives 110 for an afternoon (14:00) period:
the "period is morning" condition of the claim is absent from the code. -/
theorem c3_morning_bonus_code_bug :
    TG.calculateAssignmentScore stC3 teacherC3 subjectC3 (fun _ => 0) (fun _ _ => 0)
      "c1" "Monday" = 115 ∧
    specAssignmentScore stC3 teacherC3 subjectC3 (fun _ => 0) (fun _ _ => 0)
      "c1" "Monday" pAfternoon = 110 ∧
    (115 : ℚ) ≠ 110 := by
  refine ⟨?_, ?_, by norm_num⟩
  · simp only [TG.calculateAssignmentScore, stC3, teacherC3, subjectC3]
    norm_num
  · have hm : specIsMorningPeriod pAfternoon = false := by decide
    simp only [specAssignmentScore, hm, stC3, teacherC3, subjectC3]
    norm_num

/-- C6: whenever the three penalties are zero the soft score is exactly
1050 — the running score 1000 exceeds 950, the +50 bonus fires, and the
final `Math.max(0, ·)` clamp does not reduce it. -/
theorem c6_soft_score_perfect (st : AppState) (g : Grid)
    (h1 : CM.calculateSubjectFrequencyPenalty st g = 0)
    (h2 : CM.calculateTeacherPreferencePenalty st g = 0)
    (h3 : CM.calculateWorkloadImbalancePenalty st g = some 0) :
    CM.calculateSoftConstraintScores st g = some 1050 := by
  unfold CM.calculateSoftConstraintScores
  dsimp only
  rw [h1, h2, h3]
  norm_num [jSub, jMul, jGt, jAdd, jMax0]

/-- C6 (witness): the empty entity set and empty grid have zero penalties
and score exactly 1050. -/
theorem c6_soft_score_perfect_witness :
    CM.calculateSubjectFrequencyPenalty stC6 emptyGrid = 0 ∧
    CM.calculateTeacherPreferencePenalty stC6 emptyGrid = 0 ∧
    CM.calculateWorkloadImbalancePenalty stC6 emptyGrid = some 0 ∧
    CM.calculateSoftConstraintScores stC6 emptyGrid = some 1050 := by
  have h1 : CM.calculateSubjectFrequencyPenalty stC6 emptyGrid = 0 := rfl
  have h2 : CM.calculateTeacherPreferencePenalty stC6 emptyGrid = 0 := rfl
  have h3 : CM.calculateWorkloadImbalancePenalty stC6 emptyGrid = some 0 := rfl
  exact ⟨h1, h2, h3, c6_soft_score_perfect stC6 emptyGrid h1 h2 h3⟩

/-- C8: the validator's output is exactly one message per index pair
`i < j` whose two periods are both lessons and whose minute intervals
satisfy `start1 < end2 ∧ start2 < end1`; equivalently, `doPeriodsOverlap`
holds iff that condition does — so a pair containing a break or lunch
period is never flagged. -/
theorem c8_validator_flags_lesson_overlaps :
    (∀ periods : List Period, CM.validatePeriodConstraints periods =
      (List.range periods.length).flatMap (fun i =>
        (List.range periods.length).filterMap (fun j =>
          if i < j then
            match periods.get? i, periods.get? j with
            | some p, some q =>
              if p.type = "lesson" ∧ q.type = "lesson" ∧
                 jLtN (CM.timeToMinutes p.start_time) (CM.timeToMinutes q.end_time) = true ∧
                 jLtN (CM.timeToMinutes q.start_time) (CM.timeToMinutes p.end_time) = true then
                some (CM.overlapMessage p q)
              else none
            | _, _ => none
          else none))) ∧
    (∀ p q : Period, CM.doPeriodsOverlap p q = true ↔
      (p.type = "lesson" ∧ q.type = "lesson" ∧
       jLtN (CM.timeToMinutes p.start_time) (CM.timeToMinutes q.end_time) = true ∧
       jLtN (CM.timeToMinutes q.start_time) (CM.timeToMinutes p.end_time) = true)) := by
  have hiff : ∀ p q : Period, CM.doPeriodsOverlap p q = true ↔
      (p.type = "lesson" ∧ q.type = "lesson" ∧
       jLtN (CM.timeToMinutes p.start_time) (CM.timeToMinutes q.end_time) = true ∧
       jLtN (CM.timeToMinutes q.start_time) (CM.timeToMinutes p.end_time) = true) := by
    intro p q
    unfold CM.doPeriodsOverlap
    split_ifs with h
    · constructor
      · intro hfalse; cases hfalse
      · rintro ⟨hp, hq, _, _⟩
        rcases h with h | h
        · exact absurd hp h
        · exact absurd hq h
    · push_neg at h
      rw [Bool.and_eq_true]
      constructor
      · rintro ⟨ha, hb⟩; exact ⟨h.1, h.2, ha, hb⟩
      · rintro ⟨_, _, ha, hb⟩; exact ⟨ha, hb⟩
  refine ⟨?_, hiff⟩
  intro periods
  unfold CM.validatePeriodConstraints
  apply congrArg
  funext i
  refine congrFun (congrArg List.filterMap (funext fun j => ?_)) _
  by_cases hij : i < j
  · simp only [if_pos hij]
    cases periods.get? i with
    | none => rfl
    | some p =>
      cases periods.get? j with
      | none => rfl
      | some q => exact if_congr (hiff p q) rfl rfl
  · simp only [if_neg hij]

/-- Inserting one keyed value grows exactly its key's group by one. -/
theorem groupLen_groupInsert (t k : String) (v : α) (gs : List (String × List α)) :
    groupLen t (TG.groupInsert k v gs) = groupLen t gs + (if k = t then 1 else 0) := by
  induction gs with
  | nil => by_cases h : k = t <;> simp [TG.groupInsert, groupLen, h]
  | cons e rest ih =>
    by_cases h1 : e.1 = k
    · by_cases h2 : e.1 = t
      · have hkt : k = t := by rw [← h1, h2]
        simp [TG.groupInsert, groupLen, h1, h2, hkt]
      · have hkt : ¬(k = t) := fun h => h2 (h1.trans h)
        simp [TG.groupInsert, groupLen, h1, h2, hkt]
    · by_cases h2 : e.1 = t
      · have h3 : ¬(t = k) := fun hh => h1 (h2.trans hh)
        have h4 : ¬(k = t) := fun hh => h3 hh.symm
        simp [TG.groupInsert, groupLen, h1, h2, h3, h4]
      · simp [TG.groupInsert, groupLen, h1, h2, ih]

/-- Key counting distributes over cons. -/
theorem keyCount_cons (t : String) (e : String × α) (l : List (String × α)) :
    keyCount t (e :: l) = (if e.1 = t then 1 else 0) + keyCount t l := by
  by_cases h : e.1 = t <;> simp [keyCount, List.filter_cons, h, Nat.add_comm]

/-- Folding `groupInsert` over a keyed list accumulates exactly the per-key
counts. -/
theorem groupLen_foldl (l : List (String × α)) (acc : List (String × List α)) (t : String) :
    groupLen t (l.foldl (fun a kv => TG.groupInsert kv.1 kv.2 a) acc) =
    groupLen t acc + keyCount t l := by
  induction l generalizing acc with
  | nil => simp [keyCount]
  | cons kv rest ih =>
    rw [List.foldl_cons, ih, groupLen_groupInsert, keyCount_cons]
    by_cases h : kv.1 = t <;> (simp [h]; try omega)

/-- The group of every key holds exactly the entries carrying that key. -/
theorem groupByKey_keyCount (l : List (String × α)) (t : String) :
    groupLen t (TG.groupByKey l) = keyCount t l := by
  simpa [TG.groupByKey, groupLen] using groupLen_foldl l [] t

/-- When every group is small, so is every key's group length. -/
theorem groupLen_le_of_all {gs : List (String × List α)}
    (hall : ∀ e ∈ gs, e.2.length ≤ 1) (t : String) : groupLen t gs ≤ 1 := by
  induction gs with
  | nil => simp [groupLen]
  | cons e rest ih =>
    by_cases h : e.1 = t
    · simpa [groupLen, h] using hall e (by simp)
    · simpa [groupLen, h] using ih (fun x hx => hall x (by simp [hx]))

/-- A keyed entry in the list witnesses a positive key count. -/
theorem keyCount_pos_of_mem {t : String} {l : List (String × α)} {e : String × α}
    (he : e ∈ l) (ht : e.1 = t) : 1 ≤ keyCount t l := by
  have hmem : e ∈ l.filter (fun x => x.1 = t) := List.mem_filter.mpr ⟨he, by simp [ht]⟩
  have hpos := List.length_pos.mpr (List.ne_nil_of_mem hmem)
  simpa [keyCount] using hpos

/-- A `(day, period)` with no reported conflict has at most one assignment
entry per teacher key. -/
theorem keyCount_le_one (st : AppState) (g : Grid) (day : String) (p : Period)
    (h : TG.conflictsAt st g day p = []) (t : String) :
    keyCount t (TG.collectTeacherAssignments st g day p) ≤ 1 := by
  rw [← groupByKey_keyCount]
  apply groupLen_le_of_all
  intro e he
  unfold TG.conflictsAt at h
  have h2 := List.filterMap_eq_nil_iff.mp h e he
  by_cases hlen : 1 < e.2.length
  · rw [if_pos hlen] at h2; cases h2
  · omega

/-- Key counting through a `filterMap`, one element at a time. -/
theorem keyCount_filterMap_cons (f : β → Option (String × α)) (x : β) (l : List β)
    (t : String) :
    keyCount t ((x :: l).filterMap f) =
    (match f x with
     | some e => if e.1 = t then 1 else 0
     | none => 0) + keyCount t (l.filterMap f) := by
  rcases hf : f x with _ | e
  · simp [List.filterMap_cons, hf]
  · simp [List.filterMap_cons, hf, keyCount_cons]

/-- If every teacher key occurs at most once among the collected assignments
of a `(day, period)`, the class slots there are pairwise free of teacher
double-booking. -/
theorem pairwise_of_keyCount_le (slotOf : SchoolClass → Slot) :
    ∀ l : List SchoolClass,
      (∀ c ∈ l, (slotOf c).teacher_id ≠ some "") →
      (∀ t, keyCount t (l.filterMap (fun cls =>
        if jsTruthy (slotOf cls).teacher_id && !(slotOf cls).is_break then
          some ((slotOf cls).teacher_id.getD "", (cls.id, slotOf cls))
        else none)) ≤ 1) →
      (l.map slotOf).Pairwise
        (fun s1 s2 => ¬(s1.is_break = false ∧ s2.is_break = false ∧
          s1.teacher_id ≠ none ∧ s1.teacher_id = s2.teacher_id)) := by
  set f : SchoolClass → Option (String × (String × Slot)) := fun cls =>
    if jsTruthy (slotOf cls).teacher_id && !(slotOf cls).is_break then
      some ((slotOf cls).teacher_id.getD "", (cls.id, slotOf cls))
    else none with hfdef
  intro l
  induction l with
  | nil => intro _ _; simp
  | cons c cs ih =>
    intro hwf hkc
    rw [List.map_cons, List.pairwise_cons]
    constructor
    · intro s2 hs2 hviol
      obtain ⟨hb1, hb2, hne, heq⟩ := hviol
      obtain ⟨tch, htch⟩ := Option.ne_none_iff_exists'.mp hne
      have htne : tch ≠ "" := fun h0 => hwf c (by simp) (by rw [htch, h0])
      obtain ⟨c2, hc2, hc2slot⟩ := List.mem_map.mp hs2
      have hcond1 : (jsTruthy (slotOf c).teacher_id && !(slotOf c).is_break) = true := by
        rw [htch, hb1]; simp [jsTruthy, htne]
      have hteq : (slotOf c2).teacher_id = some tch := by rw [hc2slot, ← heq, htch]
      have hbq : (slotOf c2).is_break = false := by rw [hc2slot]; exact hb2
      have hcond2 : (jsTruthy (slotOf c2).teacher_id && !(slotOf c2).is_break) = true := by
        rw [hteq, hbq]; simp [jsTruthy, htne]
      have hfc : f c = some ((slotOf c).teacher_id.getD "", (c.id, slotOf c)) := by
        rw [hfdef]; simp only [hcond1, if_true]
      have hfc2 : f c2 = some ((slotOf c2).teacher_id.getD "", (c2.id, slotOf c2)) := by
        rw [hfdef]; simp only [hcond2, if_true]
      have hkey1 : (slotOf c).teacher_id.getD "" = tch := by rw [htch]; rfl
      have hkey2 : (slotOf c2).teacher_id.getD "" = tch := by rw [hteq]; rfl
      have hmem2 : ((slotOf c2).teacher_id.getD "", (c2.id, slotOf c2)) ∈ cs.filterMap f :=
        List.mem_filterMap.mpr ⟨c2, hc2, hfc2⟩
      have hge1 : 1 ≤ keyCount tch (cs.filterMap f) := keyCount_pos_of_mem hmem2 hkey2
      have hcount := hkc tch
      rw [keyCount_filterMap_cons, hfc] at hcount
      simp [hkey1] at hcount
      omega
    · apply ih
      · exact fun x hx => hwf x (by simp [hx])
      · intro t
        have hcount := hkc t
        rw [keyCount_filterMap_cons] at hcount
        rcases hf : f c with _ | e
        · rw [hf] at hcount; simpa using hcount
        · rw [hf] at hcount
          by_cases h : e.1 = t <;> simp [h] at hcount <;> omega

/-- A grid reported conflict-free by `findAllConflicts` satisfies teacher
exclusivity (given that teacher ids are never the empty string, which the
truthiness test would skip). -/
theorem noConflicts_exclusive (st : AppState) (g : Grid)
    (hwf : ∀ d ∈ st.days, ∀ p ∈ st.periods, ∀ c ∈ st.classes,
      (g.slots ⟨d, p.id, c.id⟩).teacher_id ≠ some "")
    (h : TG.findAllConflicts st g = []) : TeacherExclusive st g := by
  intro d hd p hp hlesson
  have h1 := List.flatMap_eq_nil_iff.mp h d hd
  have h2 := List.flatMap_eq_nil_iff.mp h1 p hp
  rw [if_pos hlesson] at h2
  exact pairwise_of_keyCount_le (fun c => g.slots ⟨d, p.id, c.id⟩) st.classes
    (fun c hc => hwf d hd p hp c hc)
    (fun t => keyCount_le_one st g d p h2 t)

/-- C1 (counterexample): a teacher double-booked across both classes of the
only `(day, period)` cannot be relocated (there is no other slot), so
`resolveConflicts` repairs nothing and returns a grid that still violates
teacher exclusivity. -/
theorem c1_resolver_exclusivity_counterexample :
    (TG.resolveConflicts st1 conflictedGrid).1 = 0 ∧
    ¬ TeacherExclusive st1 (TG.resolveConflicts st1 conflictedGrid).2 :=
  ⟨by decide, by decide⟩

/-- C1 (amended): teacher exclusivity holds for the grid returned by
`resolveConflicts` whenever no conflict remains in it — i.e. whenever
`findAllConflicts` reports none, which is exactly the situation in which
the resolver stopped because everything was repaired (teacher ids being
opaque non-empty strings). -/
theorem c1_resolver_exclusivity (st : AppState) (g0 : Grid)
    (hwf : ∀ d ∈ st.days, ∀ p ∈ st.periods, ∀ c ∈ st.classes,
      (((TG.resolveConflicts st g0).2).slots ⟨d, p.id, c.id⟩).teacher_id ≠ some "")
    (h : TG.findAllConflicts st (TG.resolveConflicts st g0).2 = []) :
    TeacherExclusive st (TG.resolveConflicts st g0).2 :=
  noConflicts_exclusive st _ hwf h

/-- C1 (witness): on a fully taught two-class grid with two distinct
teachers, the resolver finds nothing to repair and the result is exclusive. -/
theorem c1_resolver_exclusivity_witness :
    (∀ d ∈ st1.days, ∀ p ∈ st1.periods, ∀ c ∈ st1.classes,
      (((TG.resolveConflicts st1 exclusiveGrid).2).slots ⟨d, p.id, c.id⟩).teacher_id ≠
        some "") ∧
    TG.findAllConflicts st1 (TG.resolveConflicts st1 exclusiveGrid).2 = [] ∧
    TeacherExclusive st1 (TG.resolveConflicts st1 exclusiveGrid).2 := by
  have hwf : ∀ d ∈ st1.days, ∀ p ∈ st1.periods, ∀ c ∈ st1.classes,
      (((TG.resolveConflicts st1 exclusiveGrid).2).slots ⟨d, p.id, c.id⟩).teacher_id ≠
        some "" := by decide
  have h : TG.findAllConflicts st1 (TG.resolveConflicts st1 exclusiveGrid).2 = [] := by
    decide
  exact ⟨hwf, h, c1_resolver_exclusivity st1 exclusiveGrid hwf h⟩

/-- Accumulating a function over a list is the sum of its values. -/
theorem foldl_add_map (l : List α) (f : α → Nat) (n : Nat) :
    l.foldl (fun acc x => acc + f x) n = n + (l.map f).sum := by
  induction l generalizing n with
  | nil => simp
  | cons x xs ih => simp [ih, Nat.add_assoc]

/-- The guarded daily-overrun accumulation equals five times the truncated
overrun sum. -/
theorem daily_overrun_fold (st : AppState) (g : Grid) (tid : String) :
    st.days.foldl (fun acc day =>
      let daily := CM.countTeacherDailyLessons st tid day g
      if st.constraints.max_daily_lessons < daily then
        acc + (daily - st.constraints.max_daily_lessons) * 5
      else acc) 0 =
    5 * st.days.foldl (fun acc day =>
      acc + (CM.countTeacherDailyLessons st tid day g -
             st.constraints.max_daily_lessons)) 0 := by
  have hext : st.days.foldl (fun acc day =>
      let daily := CM.countTeacherDailyLessons st tid day g
      if st.constraints.max_daily_lessons < daily then
        acc + (daily - st.constraints.max_daily_lessons) * 5
      else acc) 0 =
      st.days.foldl (fun acc day =>
        acc + (CM.countTeacherDailyLessons st tid day g -
               st.constraints.max_daily_lessons) * 5) 0 := by
    apply List.foldl_ext
    intro acc day _
    dsimp only
    by_cases h : st.constraints.max_daily_lessons < CM.countTeacherDailyLessons st tid day g
    · rw [if_pos h]
    · rw [if_neg h]
      have h0 : CM.countTeacherDailyLessons st tid day g -
        st.constraints.max_daily_lessons = 0 := by omega
      rw [h0]
      omega
  rw [hext, foldl_add_map, foldl_add_map]
  rw [List.sum_map_mul_right]
  omega

/-- One teacher's preference-penalty contribution, split into the two terms
the amended claim describes. -/
theorem teacherPrefContribution_eq (st : AppState) (g : Grid) (t : Teacher) :
    CM.teacherPrefContribution st g t =
    (if t.preferences.isSome then
      5 * st.days.foldl (fun acc day =>
        acc + (CM.countTeacherDailyLessons st t.id day g -
               st.constraints.max_daily_lessons)) 0
     else 0) +
    (if (match t.preferences with
         | some pr => pr.morning_preference
         | none => false) then CM.countAfternoonLessons st t.id g else 0) := by
  rcases hp : t.preferences with _ | pr
  · simp [CM.teacherPrefContribution, hp]
  · simp only [CM.teacherPrefContribution, hp, Option.isSome_some, if_true]
    rw [daily_overrun_fold]
    by_cases hm : pr.morning_preference = true
    · simp [hm, Nat.add_comm]
    · simp [hm]

/-- Summing contributions over the teacher list yields the two filtered
sums of the amended claim. -/
theorem penalty_decomposition_aux (st : AppState) (g : Grid) :
    ∀ ts : List Teacher,
      (ts.map (CM.teacherPrefContribution st g)).sum =
      5 * ((ts.filter (fun t => t.preferences.isSome)).map (fun t =>
        st.days.foldl (fun acc day =>
          acc + (CM.countTeacherDailyLessons st t.id day g -
                 st.constraints.max_daily_lessons)) 0)).sum +
      ((ts.filter (fun t =>
        match t.preferences with
        | some pr => pr.morning_preference
        | none => false)).map (fun t => CM.countAfternoonLessons st t.id g)).sum := by
  intro ts
  induction ts with
  | nil => simp
  | cons t rest ih =>
    rw [List.map_cons, List.sum_cons, teacherPrefContribution_eq, ih]
    cases hps : t.preferences.isSome with
    | true =>
      cases hmb : (match t.preferences with
          | some pr => pr.morning_preference
          | none => false) with
      | true =>
        simp only [List.filter_cons, hps, hmb, if_true, List.map_cons, List.sum_cons]
        ring
      | false =>
        simp only [List.filter_cons, hps, hmb, Bool.false_eq_true, if_true, if_false,
          List.map_cons, List.sum_cons]
        ring
    | false =>
      have hmb : (match t.preferences with
          | some pr => pr.morning_preference
          | none => false) = false := by
        rcases hp : t.preferences with _ | pr
        · rfl
        · rw [hp] at hps; simp at hps
      simp only [List.filter_cons, hps, hmb, Bool.false_eq_true, if_false]
      omega

/-- C7 (amended): the teacher-preference penalty is `5 ×` the daily-overrun
units of teachers that own a `preferences` object, plus the afternoon-lesson
count of morning-preference teachers; since the calculator weights the
penalty by 5, each overrun unit costs 25 points of total score and each
afternoon lesson 5 — and teachers without a preferences object are exempt
from both parts. -/
theorem c7_preference_penalty_decomposition (st : AppState) (g : Grid) :
    CM.calculateTeacherPreferencePenalty st g =
      5 * totalDailyOverrunPref st g + totalAfternoonPrefLessons st g ∧
    CM.calculateSoftConstraintScores st g =
      (let total := jSub (some (1000 - CM.calculateSubjectFrequencyPenalty st g * 10 -
          (25 * (totalDailyOverrunPref st g : ℚ) +
           5 * (totalAfternoonPrefLessons st g : ℚ))))
        (jMul (CM.calculateWorkloadImbalancePenalty st g) (some 3))
      jMax0 (if jGt total 950 then jAdd total (some 50) else total)) := by
  have h1 : CM.calculateTeacherPreferencePenalty st g =
      5 * totalDailyOverrunPref st g + totalAfternoonPrefLessons st g := by
    unfold CM.calculateTeacherPreferencePenalty totalDailyOverrunPref
      totalAfternoonPrefLessons
    rw [foldl_add_map]
    simpa using penalty_decomposition_aux st g st.teachers
  refine ⟨h1, ?_⟩
  unfold CM.calculateSoftConstraintScores
  dsimp only
  rw [h1]
  have hcast : ((5 * totalDailyOverrunPref st g + totalAfternoonPrefLessons st g : Nat) : ℚ) * 5 =
      25 * (totalDailyOverrunPref st g : ℚ) + 5 * (totalAfternoonPrefLessons st g : ℚ) := by
    push_cast
    ring
  rw [hcast]

/-- C7 (counterexample): one teacher holding a preferences object with
`morning_preference: false` exceeds `max_daily_lessons = 0` by a single
lesson; the code scores the grid 1025 (the unit costs 25 points), while the
claim's reading — 5 points per overrun unit for every teacher — yields
1045. -/
theorem c7_penalty_weight_counterexample :
    CM.calculateSoftConstraintScores stC7 gC7 = some 1025 ∧
    claimC7SoftScore stC7 gC7 = some 1045 ∧
    some (1025 : ℚ) ≠ some (1045 : ℚ) := by
  have hfreq : CM.calculateSubjectFrequencyPenalty stC7 gC7 = 0 := rfl
  have hpref : CM.calculateTeacherPreferencePenalty stC7 gC7 = 5 := by decide
  have hov : totalDailyOverrunAll stC7 gC7 = 1 := by decide
  have haft : totalAfternoonPrefLessons stC7 gC7 = 0 := by decide
  have hloads : CM.calculateTeacherLoads stC7 gC7 = [some 1] := by
    have h0 : CM.calculateTeacherLoads stC7 gC7 = [("t1", (some (0:ℚ)).map (· + 1))].map
        (fun e => e.2) := rfl
    rw [h0]
    norm_num
  have himb : CM.calculateWorkloadImbalancePenalty stC7 gC7 = some 0 := by
    unfold CM.calculateWorkloadImbalancePenalty
    rw [hloads]
    simp [jAdd, jDiv, jAbs, jSub]
  constructor
  · unfold CM.calculateSoftConstraintScores
    dsimp only
    rw [hfreq, hpref, himb]
    norm_num [jSub, jMul, jGt, jAdd, jMax0]
  constructor
  · unfold claimC7SoftScore
    dsimp only
    rw [hfreq, hov, haft, himb]
    norm_num [jSub, jMul, jGt, jAdd, jMax0]
  · norm_num

/-- C9 (counterexample): moving out of a break slot succeeds (no source
check exists), but the reverse move is then rejected because its target is
the break slot — so a successful move need not be reversible. -/
theorem c9_round_trip_counterexample :
    (TG.moveLesson c9Grid a9 b9).1.success = true ∧
    (TG.moveLesson (TG.moveLesson c9Grid a9 b9).2 b9 a9).1.success = false :=
  ⟨by decide, by decide⟩

/-- A successful `moveLesson` took the final branch: all three checks
passed and the result is the two sequential slot updates. -/
theorem moveLesson_success_eq (g : Grid) (f t : Addr)
    (h : (TG.moveLesson g f t).1.success = true) :
    (g.slots t).is_break = false ∧
    jsTruthy (g.slots t).subject_id = false ∧
    TG.isTeacherAvailableById (g.slots f).teacher_id t.day t.period_id g
      (some f.class_id) = true ∧
    TG.moveLesson g f t = (⟨true, "Lesson moved successfully"⟩,
      setSlot (setSlot g t { g.slots t with
          subject_id := (g.slots f).subject_id,
          teacher_id := (g.slots f).teacher_id,
          room_id := (g.slots f).room_id }) f
        { (setSlot g t { g.slots t with
            subject_id := (g.slots f).subject_id,
            teacher_id := (g.slots f).teacher_id,
            room_id := (g.slots f).room_id }).slots f with
          subject_id := none, teacher_id := none, room_id := none }) := by
  unfold TG.moveLesson at h ⊢
  dsimp only at h ⊢
  split_ifs at h ⊢ with h1 h2 h3
  any_goals simp at h
  exact ⟨by simpa using h1, by simpa using h2, by simpa using h3, rfl⟩

/-- The converse direction: when the three checks pass, `moveLesson`
succeeds with the explicit two-step update. -/
theorem moveLesson_eq_of_checks (g : Grid) (f t : Addr)
    (h1 : (g.slots t).is_break = false)
    (h2 : jsTruthy (g.slots t).subject_id = false)
    (h3 : TG.isTeacherAvailableById (g.slots f).teacher_id t.day t.period_id g
      (some f.class_id) = true) :
    TG.moveLesson g f t = (⟨true, "Lesson moved successfully"⟩,
      setSlot (setSlot g t { g.slots t with
          subject_id := (g.slots f).subject_id,
          teacher_id := (g.slots f).teacher_id,
          room_id := (g.slots f).room_id }) f
        { (setSlot g t { g.slots t with
            subject_id := (g.slots f).subject_id,
            teacher_id := (g.slots f).teacher_id,
            room_id := (g.slots f).room_id }).slots f with
          subject_id := none, teacher_id := none, room_id := none }) := by
  unfold TG.moveLesson
  dsimp only
  rw [if_neg (by simp [h1]), if_neg (by simp [h2]), if_neg (by simp [h3])]

/-- C9 (amended): a successful move `A → B` followed by `B → A` restores the
slot contents at both addresses, provided the addresses are distinct, the
source slot is a non-break slot with a non-null teacher, that teacher is not
also booked for another class at `A`'s period, and `B` was initially empty
(null subject, teacher and room). -/
theorem c9_move_round_trip (g : Grid) (A B : Addr)
    (hab : A ≠ B)
    (hsucc : (TG.moveLesson g A B).1.success = true)
    (hbrk : (g.slots A).is_break = false)
    (htch : (g.slots A).teacher_id ≠ none)
    (hexcl : ∀ c ∈ g.classIds, c ≠ A.class_id →
      (g.slots ⟨A.day, A.period_id, c⟩).teacher_id ≠ (g.slots A).teacher_id)
    (hempty : (g.slots B).subject_id = none ∧ (g.slots B).teacher_id = none ∧
      (g.slots B).room_id = none) :
    (TG.moveLesson (TG.moveLesson g A B).2 B A).1.success = true ∧
    (TG.moveLesson (TG.moveLesson g A B).2 B A).2.slots A = g.slots A ∧
    (TG.moveLesson (TG.moveLesson g A B).2 B A).2.slots B = g.slots B := by
  obtain ⟨he1, he2, he3⟩ := hempty
  obtain ⟨_, _, _, heq⟩ := moveLesson_success_eq g A B hsucc
  have hne : B ≠ A := Ne.symm hab
  set G : Grid := (TG.moveLesson g A B).2 with hG
  have hGA : G.slots A =
      { g.slots A with subject_id := none, teacher_id := none, room_id := none } := by
    rw [hG, heq]
    simp [setSlot, hab]
  have hGB : G.slots B = ({ g.slots B with subject_id := (g.slots A).subject_id, teacher_id := (g.slots A).teacher_id, room_id := (g.slots A).room_id } : Slot) := by
    rw [hG, heq]
    simp [setSlot, hne]
  have hGother : ∀ X : Addr, X ≠ A → X ≠ B → G.slots X = g.slots X := by
    intro X hx1 hx2
    rw [hG, heq]
    simp [setSlot, hx1, hx2]
  have hGclass : G.classIds = g.classIds := by rw [hG, heq]; rfl
  have hchk1 : (G.slots A).is_break = false := by rw [hGA]; exact hbrk
  have hchk2 : jsTruthy (G.slots A).subject_id = false := by rw [hGA]; rfl
  have hchk3 : TG.isTeacherAvailableById (G.slots B).teacher_id A.day A.period_id G
      (some B.class_id) = true := by
    unfold TG.isTeacherAvailableById
    rw [Bool.not_eq_true', List.any_eq_false]
    rw [hGclass]
    intro c hc
    simp only [Bool.and_eq_true, decide_eq_true_eq, not_and]
    intro hcB
    have hcB2 : c ≠ B.class_id := fun hh => hcB (by rw [hh])
    by_cases hcA : c = A.class_id
    · have hXA : (⟨A.day, A.period_id, c⟩ : Addr) = A := by rw [hcA]
      rw [hXA, hGA, hGB]
      exact fun hh => htch hh.symm
    · have hXA : (⟨A.day, A.period_id, c⟩ : Addr) ≠ A := fun hh =>
        hcA (congrArg Addr.class_id hh)
      have hXB : (⟨A.day, A.period_id, c⟩ : Addr) ≠ B := fun hh =>
        hcB2 (congrArg Addr.class_id hh)
      rw [hGother _ hXA hXB, hGB]
      exact hexcl c hc hcA
  have heq2 := moveLesson_eq_of_checks G B A hchk1 hchk2 hchk3
  rw [heq2]
  refine ⟨rfl, ?_, ?_⟩
  · show (setSlot (setSlot G A _) B _).slots A = g.slots A
    simp [setSlot, hab, hGA, hGB]
  · show (setSlot (setSlot G A _) B _).slots B = g.slots B
    rcases hgB : g.slots B with ⟨bd, bp, bc, bs, bt, br, bb⟩
    rw [hgB] at he1 he2 he3
    simp only at he1 he2 he3
    subst he1 he2 he3
    simp [setSlot, hne, hGB, hgB]

/-- C9 (witness): a concrete round trip — one taught lesson moved to an
empty slot and back; both moves succeed and the two slots are restored. -/
theorem c9_move_round_trip_witness :
    ((TG.moveLesson c9WGrid a9w b9w).1.success = true ∧
     (∀ c ∈ c9WGrid.classIds, c ≠ a9w.class_id →
       (c9WGrid.slots ⟨a9w.day, a9w.period_id, c⟩).teacher_id ≠
         (c9WGrid.slots a9w).teacher_id)) ∧
    (TG.moveLesson (TG.moveLesson c9WGrid a9w b9w).2 b9w a9w).1.success = true ∧
    (TG.moveLesson (TG.moveLesson c9WGrid a9w b9w).2 b9w a9w).2.slots a9w =
      c9WGrid.slots a9w ∧
    (TG.moveLesson (TG.moveLesson c9WGrid a9w b9w).2 b9w a9w).2.slots b9w =
      c9WGrid.slots b9w := by
  refine ⟨⟨by decide, by decide⟩, ?_⟩
  exact c9_move_round_trip c9WGrid a9w b9w (by decide) (by decide) (by decide) (by decide)
    (by decide) ⟨by decide, by decide, by decide⟩

end TT